import Mathlib

/-!
Verification of the peptone fitness-scoring engine and blend-ratio optimizer.

The Python sources are shallowly embedded: Python dicts become association
lists in insertion order, floats become exact rationals (reals where a
Euclidean norm is taken), raised `ValueError`s become `Except.error`, and the
external scipy solvers are treated as oracles whose raw output is passed to
the code's own post-processing.
-/

namespace PeptoneFit

/-- A Python dict with string keys and numeric values, kept in insertion order. -/
abbrev Dict := List (String × ℚ)

/-- Model of `d.get(k, 0)` on a Python dict. -/
def dget (d : Dict) (k : String) : ℚ := (d.lookup k).getD 0

/-- Model of `sum(d.values())` on a Python dict. -/
def dsum (d : Dict) : ℚ := (d.map Prod.snd).sum

/-- Model of `utils.normalize_score` with the default bounds: clamp a score to `[0, 1]`. -/
def normalize_score (x : ℚ) : ℚ := max 0 (min 1 x)

/-- Real-valued counterpart of `normalize_score`, for the blend score whose
synergy term involves a Euclidean norm. -/
def normalize_scoreR (x : ℝ) : ℝ := max 0 (min 1 x)

/-- Model of `utils.calculate_deviation` with `weights=None`: every component has
weight `1.0`, so the total weight is the number of target entries. -/
def calculate_deviation (target actual : Dict) : ℚ :=
  if target = [] then 0
  else
    let deviations := target.map (fun kv =>
      let actual_val := dget actual kv.1
      (if kv.2 > 0 then |actual_val - kv.2| / kv.2 else |actual_val - kv.2|) * 1)
    let total_weight : ℚ := (target.map (fun _ => (1 : ℚ))).sum
    if total_weight > 0 then deviations.sum / total_weight else 0

/-- Model of `peptone_analyzer.ESSENTIAL_AMINO_ACIDS`. -/
def ESSENTIAL_AMINO_ACIDS : List String :=
  ["Threonine", "Valine", "Methionine", "Isoleucine",
   "Leucine", "Phenylalanine", "Tryptophan", "Lysine", "Histidine"]

/-- Model of `peptone_analyzer.BCAA`. -/
def BCAA : List String := ["Valine", "Leucine", "Isoleucine"]

/-- Model of `peptone_analyzer.NutritionalProfile`: nine named mappings. -/
structure NutritionalProfile where
  general : Dict := []
  sugars : Dict := []
  minerals : Dict := []
  nucleotides : Dict := []
  organic_acids : Dict := []
  vitamins : Dict := []
  molecular_weight : Dict := []
  total_amino_acids : Dict := []
  free_amino_acids : Dict := []
deriving DecidableEq

/-- Model of `NutritionalProfile.get_essential_aa_ratio`.  Python's
`sum(...) or 1.0` replaces a zero total by `1.0`. -/
def get_essential_aa_ratio (p : NutritionalProfile) : ℚ :=
  let total0 := dsum p.total_amino_acids
  let total := if total0 = 0 then 1 else total0
  let essential :=
    (ESSENTIAL_AMINO_ACIDS.map (fun aa => dget p.total_amino_acids ("taa_" ++ aa))).sum
  essential / total

/-- Model of `NutritionalProfile.get_bcaa_ratio`. -/
def get_bcaa_ratio (p : NutritionalProfile) : ℚ :=
  let total0 := dsum p.total_amino_acids
  let total := if total0 = 0 then 1 else total0
  let bcaa := (BCAA.map (fun aa => dget p.total_amino_acids ("taa_" ++ aa))).sum
  bcaa / total

/-- Model of `NutritionalProfile.get_free_aa_ratio`.  Python's `sum(...) or 0.0` on the
numerator is the identity on a numeric sum. -/
def get_free_aa_ratio (p : NutritionalProfile) : ℚ :=
  let total0 := dsum p.total_amino_acids
  let total := if total0 = 0 then 1 else total0
  let free := dsum p.free_amino_acids
  free / total

/-- Model of `peptone_analyzer.PeptoneProduct` (identity fields plus owned profile). -/
structure PeptoneProduct where
  sample_id : String
  name : String
  raw_material : String
  manufacturer : String
  profile : NutritionalProfile
  is_sempio : Bool := false
deriving DecidableEq

/-- One entry of `strain_manager.STRAIN_CATEGORIES`. -/
structure CategoryInfo where
  genera : List String
  nutritional_type : String
  key_requirements : List String
deriving DecidableEq

/-- Model of `strain_manager.STRAIN_CATEGORIES`, in source order. -/
def STRAIN_CATEGORIES : List (String × CategoryInfo) :=
  [("LAB",
    ⟨["Lactobacillus", "Lactiplantibacillus", "Lacticaseibacillus",
      "Limosilactobacillus", "Ligilactobacillus", "Bifidobacterium",
      "Enterococcus", "Streptococcus", "Lactococcus", "Leuconostoc",
      "Weissella", "Pediococcus"],
     "fastidious", ["amino_acids", "B_vitamins", "nucleotides"]⟩),
   ("Bacillus", ⟨["Bacillus"], "minimal", ["nitrogen_source", "trace_minerals"]⟩),
   ("E_coli", ⟨["Escherichia"], "minimal_to_moderate",
     ["nitrogen_source", "carbon_source"]⟩),
   ("Yeast", ⟨["Saccharomyces", "Candida", "Pichia"], "moderate",
     ["nitrogen_source", "vitamins", "trace_minerals"]⟩),
   ("Actinomycetes", ⟨["Streptomyces", "Actinomyces"], "complex",
     ["complex_nitrogen", "phosphate"]⟩),
   ("Other", ⟨[], "variable", ["basic_nutrients"]⟩)]

/-- Model of `STRAIN_CATEGORIES.get(cat, {}).get('nutritional_type', 'moderate')` as used
by the recommender. -/
def nutritionalTypeFor (category : String) : String :=
  ((STRAIN_CATEGORIES.lookup category).map CategoryInfo.nutritional_type).getD "moderate"

/-- Model of `STRAIN_CATEGORIES.get(cat, {}).get('key_requirements', [])` as used by the
recommender. -/
def keyRequirementsFor (category : String) : List String :=
  ((STRAIN_CATEGORIES.lookup category).map CategoryInfo.key_requirements).getD []

/-- The fields of `strain_manager.StrainProfile` the scoring engine reads. -/
structure StrainProfile where
  genus : String
  species : String
  strain_id : String
  category : String := "Other"
  is_nda : Bool := false
deriving DecidableEq

/-- Python's `str.strip()`: drop whitespace from both ends. -/
def pyStrip (s : String) : String :=
  ⟨((s.data.dropWhile (·.isWhitespace)).reverse.dropWhile (·.isWhitespace)).reverse⟩

/-- Model of `StrainProfile._determine_category`: first category whose genera list
contains the stripped genus, else `"Other"`. -/
def determine_category (genus : String) : String :=
  ((STRAIN_CATEGORIES.find? (fun e => pyStrip genus ∈ e.2.genera)).map Prod.fst).getD "Other"

/-- Model of `StrainProfile.__post_init__`: derive the category from the genus when the
given category is empty or `"Other"`, and force `is_nda` when the strain id
contains the character `*`. -/
def mkStrainProfile (genus species strain_id : String)
    (category : String := "Other") (is_nda : Bool := false) : StrainProfile :=
  { genus := genus
    species := species
    strain_id := strain_id
    category := if category = "" ∨ category = "Other" then determine_category genus
                else category
    is_nda := is_nda || strain_id.data.contains '*' }

/-- Model of `recommendation_engine.SCORING_WEIGHTS`. -/
def SCORING_WEIGHTS : Dict :=
  [("nutritional_match", 40/100), ("amino_acid_match", 25/100),
   ("growth_factor_match", 20/100), ("mw_distribution_match", 15/100)]

/-- Model of `recommendation_engine.OPTIMAL_MW_PROFILES`. -/
def OPTIMAL_MW_PROFILES : List (String × Dict) :=
  [("LAB", [("mw_pct_lt250Da", 25/100), ("mw_pct_250_500Da", 30/100),
            ("mw_pct_gt1000Da", 20/100)]),
   ("Bacillus", [("mw_pct_lt250Da", 15/100), ("mw_pct_gt1000Da", 40/100)]),
   ("E_coli", [("mw_pct_lt250Da", 20/100), ("mw_pct_250_500Da", 35/100),
               ("mw_pct_gt1000Da", 25/100)]),
   ("Yeast", [("mw_pct_lt250Da", 20/100), ("mw_pct_250_500Da", 30/100),
              ("mw_pct_500_750Da", 20/100), ("mw_pct_gt1000Da", 30/100)]),
   ("Actinomycetes", [("mw_pct_250_500Da", 25/100), ("mw_pct_500_750Da", 25/100),
                      ("mw_pct_gt1000Da", 35/100)]),
   ("Other", [("mw_pct_250_500Da", 30/100), ("mw_pct_500_750Da", 25/100),
              ("mw_pct_gt1000Da", 30/100)])]

/-- Model of `PeptoneRecommender._match_nutritional_requirements`, written in the
source's accumulation style (`score = 0.0; score += ...`). -/
def match_nutritional_requirements (strain : StrainProfile)
    (peptone : PeptoneProduct) : ℚ :=
  let nutritional_type := nutritionalTypeFor strain.category
  let tn := dget peptone.profile.general "general_TN"
  let an := dget peptone.profile.general "general_AN"
  let score : ℚ :=
    if nutritional_type = "fastidious" then
      0 + min 1 (an / 15) * (6/10) + min 1 (tn / 80) * (4/10)
    else if nutritional_type = "minimal" then
      0 + min 1 (tn / 60) * (7/10) + min 1 (an / 8) * (3/10)
    else
      0 + (min 1 (tn / 70) + min 1 (an / 12)) / 2
  normalize_score score

/-- Model of `PeptoneRecommender._match_amino_acid_profile`. -/
def match_amino_acid_profile (strain : StrainProfile)
    (peptone : PeptoneProduct) : ℚ :=
  let score : ℚ :=
    0 + get_essential_aa_ratio peptone.profile * (4/10)
      + get_free_aa_ratio peptone.profile * (3/10)
      + get_bcaa_ratio peptone.profile * (3/10)
  normalize_score score

/-- Model of `PeptoneRecommender._match_growth_factors`. -/
def match_growth_factors (strain : StrainProfile)
    (peptone : PeptoneProduct) : ℚ :=
  let requirements := keyRequirementsFor strain.category
  let nucleotide_sum := dsum peptone.profile.nucleotides
  let vitamin_sum := dsum peptone.profile.vitamins
  let score : ℚ :=
    if "nucleotides" ∈ requirements ∨ "B_vitamins" ∈ requirements then
      0 + min 1 (nucleotide_sum / 20) * (5/10) + min 1 (vitamin_sum / 10) * (5/10)
    else
      min 1 ((nucleotide_sum + vitamin_sum) / 30)
  normalize_score score

/-- Model of `PeptoneRecommender._match_molecular_weight`. -/
def match_molecular_weight (strain : StrainProfile)
    (peptone : PeptoneProduct) : ℚ :=
  let optimal := ((OPTIMAL_MW_PROFILES.lookup strain.category).getD
    ((OPTIMAL_MW_PROFILES.lookup "Other").getD []))
  let actual := peptone.profile.molecular_weight
  let deviation := calculate_deviation optimal actual
  normalize_score (1 - min 1 deviation)

/-- The four named subscores of `calculate_fitness_score`
(the `detailed_scores` dict, which has exactly these keys). -/
structure DetailedScores where
  nutritional_match : ℚ
  amino_acid_match : ℚ
  growth_factor_match : ℚ
  mw_distribution_match : ℚ
deriving DecidableEq

/-- Model of `PeptoneRecommender.calculate_fitness_score`. -/
def calculate_fitness_score (strain : StrainProfile)
    (peptone : PeptoneProduct) : ℚ × DetailedScores :=
  let nut_score := match_nutritional_requirements strain peptone
  let aa_score := match_amino_acid_profile strain peptone
  let gf_score := match_growth_factors strain peptone
  let mw_score := match_molecular_weight strain peptone
  let overall :=
    nut_score * dget SCORING_WEIGHTS "nutritional_match" +
    aa_score * dget SCORING_WEIGHTS "amino_acid_match" +
    gf_score * dget SCORING_WEIGHTS "growth_factor_match" +
    mw_score * dget SCORING_WEIGHTS "mw_distribution_match"
  (overall, ⟨nut_score, aa_score, gf_score, mw_score⟩)

/- Basic bounds used throughout: a clamped score is in `[0, 1]`. -/

theorem normalize_score_nonneg (x : ℚ) : 0 ≤ normalize_score x :=
  le_max_left 0 _

theorem normalize_score_le_one (x : ℚ) : normalize_score x ≤ 1 :=
  max_le (by norm_num) (min_le_left 1 x)

theorem match_nutritional_mem (s : StrainProfile) (p : PeptoneProduct) :
    0 ≤ match_nutritional_requirements s p ∧ match_nutritional_requirements s p ≤ 1 := by
  unfold match_nutritional_requirements
  exact ⟨normalize_score_nonneg _, normalize_score_le_one _⟩

theorem match_amino_mem (s : StrainProfile) (p : PeptoneProduct) :
    0 ≤ match_amino_acid_profile s p ∧ match_amino_acid_profile s p ≤ 1 := by
  unfold match_amino_acid_profile
  exact ⟨normalize_score_nonneg _, normalize_score_le_one _⟩

theorem match_growth_mem (s : StrainProfile) (p : PeptoneProduct) :
    0 ≤ match_growth_factors s p ∧ match_growth_factors s p ≤ 1 := by
  unfold match_growth_factors
  exact ⟨normalize_score_nonneg _, normalize_score_le_one _⟩

theorem match_mw_mem (s : StrainProfile) (p : PeptoneProduct) :
    0 ≤ match_molecular_weight s p ∧ match_molecular_weight s p ≤ 1 := by
  unfold match_molecular_weight
  exact ⟨normalize_score_nonneg _, normalize_score_le_one _⟩

theorem weight_nutritional : dget SCORING_WEIGHTS "nutritional_match" = 40/100 := by
  simp [dget, SCORING_WEIGHTS, List.lookup]

theorem weight_amino : dget SCORING_WEIGHTS "amino_acid_match" = 25/100 := by
  simp [dget, SCORING_WEIGHTS, List.lookup]

theorem weight_growth : dget SCORING_WEIGHTS "growth_factor_match" = 20/100 := by
  simp [dget, SCORING_WEIGHTS, List.lookup]

theorem weight_mw : dget SCORING_WEIGHTS "mw_distribution_match" = 15/100 := by
  simp [dget, SCORING_WEIGHTS, List.lookup]

theorem fitness_overall_eq (s : StrainProfile) (p : PeptoneProduct) :
    (calculate_fitness_score s p).1 =
      match_nutritional_requirements s p * (40/100) +
      match_amino_acid_profile s p * (25/100) +
      match_growth_factors s p * (20/100) +
      match_molecular_weight s p * (15/100) := by
  unfold calculate_fitness_score
  rw [weight_nutritional, weight_amino, weight_growth, weight_mw]

theorem fitness_overall_mem (s : StrainProfile) (p : PeptoneProduct) :
    0 ≤ (calculate_fitness_score s p).1 ∧ (calculate_fitness_score s p).1 ≤ 1 := by
  obtain ⟨h1, h2⟩ := match_nutritional_mem s p
  obtain ⟨h3, h4⟩ := match_amino_mem s p
  obtain ⟨h5, h6⟩ := match_growth_mem s p
  obtain ⟨h7, h8⟩ := match_mw_mem s p
  rw [fitness_overall_eq]
  constructor <;> nlinarith

/-- C1: for every strain and peptone, `calculate_fitness_score` returns an
overall score equal to `nutritional_match*0.40 + amino_acid_match*0.25 +
growth_factor_match*0.20 + mw_distribution_match*0.15`, where each of the four
subscores is clamped to `[0,1]` before combination, and consequently the
overall score lies in `[0,1]`. -/
theorem fitness_score_overall_spec (strain : StrainProfile) (peptone : PeptoneProduct) :
    (calculate_fitness_score strain peptone).1 =
        (calculate_fitness_score strain peptone).2.nutritional_match * (40/100)
      + (calculate_fitness_score strain peptone).2.amino_acid_match * (25/100)
      + (calculate_fitness_score strain peptone).2.growth_factor_match * (20/100)
      + (calculate_fitness_score strain peptone).2.mw_distribution_match * (15/100)
    ∧ (0 ≤ (calculate_fitness_score strain peptone).2.nutritional_match
        ∧ (calculate_fitness_score strain peptone).2.nutritional_match ≤ 1)
    ∧ (0 ≤ (calculate_fitness_score strain peptone).2.amino_acid_match
        ∧ (calculate_fitness_score strain peptone).2.amino_acid_match ≤ 1)
    ∧ (0 ≤ (calculate_fitness_score strain peptone).2.growth_factor_match
        ∧ (calculate_fitness_score strain peptone).2.growth_factor_match ≤ 1)
    ∧ (0 ≤ (calculate_fitness_score strain peptone).2.mw_distribution_match
        ∧ (calculate_fitness_score strain peptone).2.mw_distribution_match ≤ 1)
    ∧ 0 ≤ (calculate_fitness_score strain peptone).1
    ∧ (calculate_fitness_score strain peptone).1 ≤ 1 :=
  ⟨fitness_overall_eq strain peptone,
   match_nutritional_mem strain peptone,
   match_amino_mem strain peptone,
   match_growth_mem strain peptone,
   match_mw_mem strain peptone,
   (fitness_overall_mem strain peptone).1,
   (fitness_overall_mem strain peptone).2⟩

/-- A strain constructed from genus `Lactobacillus`, classified `LAB`. -/
def labExampleStrain : StrainProfile :=
  mkStrainProfile "Lactobacillus" "plantarum" "KCCM 12116"

/-- A peptone measuring `TN = 75` and `AN = 14`. -/
def examplePeptone : PeptoneProduct :=
  { sample_id := "S1", name := "P1", raw_material := "soybean",
    manufacturer := "Sempio",
    profile := { general := [("general_TN", 75), ("general_AN", 14)] } }

/-- C4: the nutritional-match subscore per nutritional type: fastidious
strains get `min(1,AN/15)*0.6 + min(1,TN/80)*0.4`; minimal strains get
`min(1,TN/60)*0.7 + min(1,AN/8)*0.3`; every other type gets
`(min(1,TN/70) + min(1,AN/12))/2`; absent TN/AN keys default to 0 (built into
`dget`).  For a LAB (fastidious) strain and a peptone with `TN=75`, `AN=14`
the subscore is `min(1,14/15)*0.6 + min(1,75/80)*0.4 = 0.935` exactly. -/
theorem nutritional_subscore_spec :
    (∀ (strain : StrainProfile) (peptone : PeptoneProduct),
      match_nutritional_requirements strain peptone =
        normalize_score (
          if nutritionalTypeFor strain.category = "fastidious" then
            min 1 (dget peptone.profile.general "general_AN" / 15) * (6/10)
              + min 1 (dget peptone.profile.general "general_TN" / 80) * (4/10)
          else if nutritionalTypeFor strain.category = "minimal" then
            min 1 (dget peptone.profile.general "general_TN" / 60) * (7/10)
              + min 1 (dget peptone.profile.general "general_AN" / 8) * (3/10)
          else
            (min 1 (dget peptone.profile.general "general_TN" / 70)
              + min 1 (dget peptone.profile.general "general_AN" / 12)) / 2))
    ∧ labExampleStrain.category = "LAB"
    ∧ nutritionalTypeFor labExampleStrain.category = "fastidious"
    ∧ match_nutritional_requirements labExampleStrain examplePeptone = 187/200 := by
  have hcat : labExampleStrain.category = "LAB" := by decide
  have hnt : nutritionalTypeFor "LAB" = "fastidious" := by decide
  refine ⟨?_, hcat, ?_, ?_⟩
  · intro s p
    dsimp only [match_nutritional_requirements]
    split_ifs <;> (congr 1; ring)
  · rw [hcat, hnt]
  · have htn : dget examplePeptone.profile.general "general_TN" = 75 := by
      simp [dget, examplePeptone, List.lookup]
    have han : dget examplePeptone.profile.general "general_AN" = 14 := by
      simp [dget, examplePeptone, List.lookup]
    dsimp only [match_nutritional_requirements]
    rw [hcat, hnt, htn, han]
    norm_num [normalize_score]

/-! ### Blend evaluation (`_evaluate_blend`, `_calculate_synergy`) -/

/-- The per-peptone essential free-amino-acid vector built in
`_calculate_synergy`. -/
def aaProfileVec (p : PeptoneProduct) : List ℚ :=
  ESSENTIAL_AMINO_ACIDS.map (fun aa => dget p.profile.free_amino_acids ("faa_" ++ aa))

/-- The index pairs `(i, j)` with `i < j`, in the double-loop order of
`_calculate_synergy`. -/
def pairsOf {α : Type} : List α → List (α × α)
  | [] => []
  | x :: xs => xs.map (fun y => (x, y)) ++ pairsOf xs

/-- Model of `np.linalg.norm(v1 - v2)` on equal-length vectors. -/
noncomputable def euclidean_norm_diff (a b : List ℚ) : ℝ :=
  Real.sqrt (((a.zip b).map (fun q => ((q.1 - q.2 : ℚ) : ℝ) ^ 2)).sum)

/-- Model of `PeptoneRecommender._calculate_synergy` (its `ratios` argument is unused in
the source as well). -/
noncomputable def calculate_synergy (peptones : List PeptoneProduct)
    (ratios : List ℚ) : ℝ :=
  if peptones.length < 2 then 0
  else
    let material_diversity : ℚ :=
      ((peptones.map PeptoneProduct.raw_material).dedup.length : ℚ) / peptones.length
    let aa_profiles := peptones.map aaProfileVec
    let distances := (pairsOf aa_profiles).map (fun q => euclidean_norm_diff q.1 q.2)
    let aa_diversity : ℝ :=
      if 2 ≤ aa_profiles.length then (distances.sum / distances.length) / 10 else 0
    normalize_scoreR ((material_diversity : ℝ) * (6/10) + min 1 aa_diversity * (4/10))

/-- The all-zero `detailed_scores` dict `_evaluate_blend` starts from. -/
def zeroDetailed : DetailedScores := ⟨0, 0, 0, 0⟩

/-- One step of the `detailed_scores[key] += details[key] * ratio` loop. -/
def addScaled (d e : DetailedScores) (r : ℚ) : DetailedScores :=
  ⟨d.nutritional_match + e.nutritional_match * r,
   d.amino_acid_match + e.amino_acid_match * r,
   d.growth_factor_match + e.growth_factor_match * r,
   d.mw_distribution_match + e.mw_distribution_match * r⟩

/-- The accumulation loop of `_evaluate_blend` over `zip(peptones, ratios)`. -/
def blendTotals (strain : StrainProfile)
    (pairs : List (PeptoneProduct × ℚ)) : ℚ × DetailedScores :=
  pairs.foldl (fun acc pr =>
    let s := calculate_fitness_score strain pr.1
    (acc.1 + s.1 * pr.2, addScaled acc.2 s.2 pr.2)) (0, zeroDetailed)

/-- Model of `PeptoneRecommender._evaluate_blend`: ratio-weighted subscores, a synergy
multiplier on the total only, and a final clamp on the total only. -/
noncomputable def evaluate_blend (strain : StrainProfile)
    (peptones : List PeptoneProduct) (ratios : List ℚ) : ℝ × DetailedScores :=
  let t := blendTotals strain (peptones.zip ratios)
  let synergy := calculate_synergy peptones ratios
  (normalize_scoreR ((t.1 : ℝ) * (1 + synergy * (1/10))), t.2)

/-- Closed form of the accumulation loop. -/
theorem blendTotals_eq (strain : StrainProfile) :
    ∀ (pairs : List (PeptoneProduct × ℚ)) (acc : ℚ × DetailedScores),
      pairs.foldl (fun acc pr =>
        let s := calculate_fitness_score strain pr.1
        (acc.1 + s.1 * pr.2, addScaled acc.2 s.2 pr.2)) acc =
      (acc.1 + (pairs.map (fun pr => (calculate_fitness_score strain pr.1).1 * pr.2)).sum,
       ⟨acc.2.nutritional_match +
          (pairs.map (fun pr =>
            (calculate_fitness_score strain pr.1).2.nutritional_match * pr.2)).sum,
        acc.2.amino_acid_match +
          (pairs.map (fun pr =>
            (calculate_fitness_score strain pr.1).2.amino_acid_match * pr.2)).sum,
        acc.2.growth_factor_match +
          (pairs.map (fun pr =>
            (calculate_fitness_score strain pr.1).2.growth_factor_match * pr.2)).sum,
        acc.2.mw_distribution_match +
          (pairs.map (fun pr =>
            (calculate_fitness_score strain pr.1).2.mw_distribution_match * pr.2)).sum⟩) := by
  intro pairs
  induction pairs with
  | nil => intro acc; simp
  | cons hd tl ih =>
    intro acc
    rw [List.foldl_cons, ih]
    dsimp only
    simp only [addScaled, List.map_cons, List.sum_cons, Prod.mk.injEq,
      DetailedScores.mk.injEq]
    refine ⟨by ring, by ring, by ring, by ring, by ring⟩

theorem blendTotals_closed (strain : StrainProfile)
    (pairs : List (PeptoneProduct × ℚ)) :
    blendTotals strain pairs =
      ((pairs.map (fun pr => (calculate_fitness_score strain pr.1).1 * pr.2)).sum,
       ⟨(pairs.map (fun pr =>
           (calculate_fitness_score strain pr.1).2.nutritional_match * pr.2)).sum,
        (pairs.map (fun pr =>
           (calculate_fitness_score strain pr.1).2.amino_acid_match * pr.2)).sum,
        (pairs.map (fun pr =>
           (calculate_fitness_score strain pr.1).2.growth_factor_match * pr.2)).sum,
        (pairs.map (fun pr =>
           (calculate_fitness_score strain pr.1).2.mw_distribution_match * pr.2)).sum⟩) := by
  unfold blendTotals
  rw [blendTotals_eq]
  simp [zeroDetailed]

/-- C5: blend evaluation of a single peptone at ratio `1.0` yields exactly the
same overall score and the same per-subscore breakdown as scoring that peptone
directly (`_calculate_synergy` returns 0 for fewer than 2 components). -/
theorem evaluate_blend_singleton_spec (strain : StrainProfile) (p : PeptoneProduct) :
    evaluate_blend strain [p] [1] =
      (((calculate_fitness_score strain p).1 : ℝ),
        (calculate_fitness_score strain p).2) := by
  obtain ⟨h0, h1⟩ := fitness_overall_mem strain p
  have hzip : ([p].zip ([1] : List ℚ)) = [(p, 1)] := rfl
  have hbt : blendTotals strain [(p, 1)] =
      ((calculate_fitness_score strain p).1, (calculate_fitness_score strain p).2) := by
    simp [blendTotals, addScaled, zeroDetailed]
  have hsyn : calculate_synergy [p] [1] = 0 := by
    simp [calculate_synergy]
  unfold evaluate_blend
  rw [hzip, hbt, hsyn]
  simp only [mul_zero, zero_mul, add_zero, mul_one, normalize_scoreR]
  refine Prod.ext ?_ rfl
  dsimp
  rw [min_eq_right (by exact_mod_cast h1)]
  exact max_eq_right (by exact_mod_cast h0)

/-- Ratio-weighted sums of clamped subscores stay in `[0, 1]`. -/
theorem weighted_subsum_mem (sub : PeptoneProduct → ℚ)
    (hs : ∀ p : PeptoneProduct, 0 ≤ sub p ∧ sub p ≤ 1)
    (peptones : List PeptoneProduct) (ratios : List ℚ)
    (hlen : peptones.length = ratios.length)
    (hnn : ∀ r ∈ ratios, 0 ≤ r) (hsum : ratios.sum = 1) :
    0 ≤ ((peptones.zip ratios).map (fun pr => sub pr.1 * pr.2)).sum ∧
      ((peptones.zip ratios).map (fun pr => sub pr.1 * pr.2)).sum ≤ 1 := by
  constructor
  · apply List.sum_nonneg
    intro x hx
    obtain ⟨⟨a, b⟩, hpr, rfl⟩ := List.mem_map.1 hx
    obtain ⟨-, h2⟩ := List.of_mem_zip hpr
    exact mul_nonneg (hs a).1 (hnn b h2)
  · have step : ((peptones.zip ratios).map (fun pr => sub pr.1 * pr.2)).sum ≤
        ((peptones.zip ratios).map Prod.snd).sum := by
      apply List.sum_le_sum
      intro pr hpr
      obtain ⟨-, h2⟩ := List.of_mem_zip (a := pr.1) (b := pr.2) (by simpa using hpr)
      exact mul_le_of_le_one_left (hnn _ h2) (hs pr.1).2
    rw [List.map_snd_zip peptones ratios hlen.ge, hsum] at step
    exact step

/-- A strain in the catch-all `Other` category. -/
def otherStrain : StrainProfile :=
  ⟨"Unknown", "sp.", "S0", "Other", false⟩

/-- Blend component with `TN = 35` and raw material `soybean`. -/
def blendPeptoneA : PeptoneProduct :=
  ⟨"A1", "PepA", "soybean", "Sempio", { general := [("general_TN", 35)] }, false⟩

/-- Blend component with `TN = 35` and raw material `fish`. -/
def blendPeptoneB : PeptoneProduct :=
  ⟨"B1", "PepB", "fish", "Sempio", { general := [("general_TN", 35)] }, false⟩

theorem fitness_TN35 (p : PeptoneProduct)
    (hp : p.profile = { general := [("general_TN", 35)] }) :
    calculate_fitness_score otherStrain p = (1/10, ⟨1/4, 0, 0, 0⟩) := by
  have hvar : nutritionalTypeFor "Other" = "variable" := by decide
  have hreq : keyRequirementsFor "Other" = ["basic_nutrients"] := by decide
  have hcat : otherStrain.category = "Other" := rfl
  have hnut : match_nutritional_requirements otherStrain p = 1/4 := by
    dsimp only [match_nutritional_requirements]
    rw [hcat, hvar, hp]
    simp [dget, List.lookup, normalize_score]
    norm_num [min_def, max_def]
  have haa : match_amino_acid_profile otherStrain p = 0 := by
    dsimp only [match_amino_acid_profile]
    rw [hp]
    simp [get_essential_aa_ratio, get_free_aa_ratio, get_bcaa_ratio, dsum, dget,
      List.lookup, ESSENTIAL_AMINO_ACIDS, BCAA, normalize_score]
  have hgf : match_growth_factors otherStrain p = 0 := by
    dsimp only [match_growth_factors]
    rw [hcat, hreq, hp]
    simp [dsum, normalize_score]
  have hmw : match_molecular_weight otherStrain p = 0 := by
    dsimp only [match_molecular_weight]
    rw [hcat, hp]
    simp [OPTIMAL_MW_PROFILES, List.lookup, calculate_deviation, dget,
      normalize_score]
    rw [abs_of_pos (show (0:ℚ) < 30/100 by norm_num),
      abs_of_pos (show (0:ℚ) < 25/100 by norm_num)]
    norm_num [min_def, max_def]
  dsimp only [calculate_fitness_score]
  rw [hnut, haa, hgf, hmw, weight_nutritional, weight_amino, weight_growth,
    weight_mw]
  norm_num [Prod.ext_iff]

theorem aaProfileVec_blendA :
    aaProfileVec blendPeptoneA = [0, 0, 0, 0, 0, 0, 0, 0, 0] := by
  simp [aaProfileVec, blendPeptoneA, ESSENTIAL_AMINO_ACIDS, dget]

theorem aaProfileVec_blendB :
    aaProfileVec blendPeptoneB = [0, 0, 0, 0, 0, 0, 0, 0, 0] := by
  simp [aaProfileVec, blendPeptoneB, ESSENTIAL_AMINO_ACIDS, dget]

theorem synergy_example :
    calculate_synergy [blendPeptoneA, blendPeptoneB] [1/2, 1/2] = 6/10 := by
  have hnd : euclidean_norm_diff (aaProfileVec blendPeptoneA)
      (aaProfileVec blendPeptoneB) = 0 := by
    rw [aaProfileVec_blendA, aaProfileVec_blendB]
    simp [euclidean_norm_diff]
  have hded : (["soybean", "fish"] : List String).dedup.length = 2 := by decide
  have hra : blendPeptoneA.raw_material = "soybean" := rfl
  have hrb : blendPeptoneB.raw_material = "fish" := rfl
  simp only [calculate_synergy, pairsOf, List.map_cons, List.map_nil, hra, hrb,
    hded, hnd, List.length_cons, List.length_nil, List.append_nil,
    List.nil_append, List.sum_cons, List.sum_nil]
  norm_num [normalize_scoreR, min_def, max_def]

theorem evaluate_blend_example :
    evaluate_blend otherStrain [blendPeptoneA, blendPeptoneB] [1/2, 1/2]
      = (53/500, ⟨1/4, 0, 0, 0⟩) := by
  have hA := fitness_TN35 blendPeptoneA rfl
  have hB := fitness_TN35 blendPeptoneB rfl
  have hbt : blendTotals otherStrain ([blendPeptoneA, blendPeptoneB].zip [1/2, 1/2])
      = (1/10, ⟨1/4, 0, 0, 0⟩) := by
    rw [show ([blendPeptoneA, blendPeptoneB].zip ([1/2, 1/2] : List ℚ)) =
      [(blendPeptoneA, 1/2), (blendPeptoneB, 1/2)] from rfl]
    rw [blendTotals_closed]
    simp only [List.map_cons, List.map_nil, List.sum_cons, List.sum_nil, hA, hB]
    norm_num [Prod.ext_iff, DetailedScores.mk.injEq]
  show (normalize_scoreR (((blendTotals otherStrain
      ([blendPeptoneA, blendPeptoneB].zip [1/2, 1/2])).1 : ℝ) *
      (1 + calculate_synergy [blendPeptoneA, blendPeptoneB] [1/2, 1/2] * (1/10))),
    (blendTotals otherStrain ([blendPeptoneA, blendPeptoneB].zip [1/2, 1/2])).2) = _
  rw [hbt, synergy_example]
  norm_num [normalize_scoreR, min_def, max_def, Prod.ext_iff]

/-- C9: for every blend whose ratio vector matches the component list, has
non-negative ratios and sums to 1, each entry of the detailed-scores breakdown
returned by `_evaluate_blend` equals exactly the ratio-weighted sum of the
corresponding per-peptone subscores — the synergy multiplier and the final
clamp are applied only to the overall score, never to the breakdown — so each
breakdown entry lies in `[0,1]`; and the overall score need not equal the
weighted recombination of the breakdown (witnessed by a concrete two-component
blend). -/
theorem evaluate_blend_breakdown_spec (strain : StrainProfile)
    (peptones : List PeptoneProduct) (ratios : List ℚ)
    (hlen : peptones.length = ratios.length)
    (hnn : ∀ r ∈ ratios, 0 ≤ r)
    (hsum : ratios.sum = 1) :
    ((evaluate_blend strain peptones ratios).2 =
      ⟨((peptones.zip ratios).map (fun pr =>
          (calculate_fitness_score strain pr.1).2.nutritional_match * pr.2)).sum,
        ((peptones.zip ratios).map (fun pr =>
          (calculate_fitness_score strain pr.1).2.amino_acid_match * pr.2)).sum,
        ((peptones.zip ratios).map (fun pr =>
          (calculate_fitness_score strain pr.1).2.growth_factor_match * pr.2)).sum,
        ((peptones.zip ratios).map (fun pr =>
          (calculate_fitness_score strain pr.1).2.mw_distribution_match * pr.2)).sum⟩)
    ∧ (0 ≤ (evaluate_blend strain peptones ratios).2.nutritional_match ∧
        (evaluate_blend strain peptones ratios).2.nutritional_match ≤ 1)
    ∧ (0 ≤ (evaluate_blend strain peptones ratios).2.amino_acid_match ∧
        (evaluate_blend strain peptones ratios).2.amino_acid_match ≤ 1)
    ∧ (0 ≤ (evaluate_blend strain peptones ratios).2.growth_factor_match ∧
        (evaluate_blend strain peptones ratios).2.growth_factor_match ≤ 1)
    ∧ (0 ≤ (evaluate_blend strain peptones ratios).2.mw_distribution_match ∧
        (evaluate_blend strain peptones ratios).2.mw_distribution_match ≤ 1)
    ∧ ∃ (s : StrainProfile) (ps : List PeptoneProduct) (rs : List ℚ),
        ps.length = rs.length ∧ (∀ r ∈ rs, 0 ≤ r) ∧ rs.sum = 1 ∧
        (evaluate_blend s ps rs).1 ≠
          (((evaluate_blend s ps rs).2.nutritional_match * (40/100)
            + (evaluate_blend s ps rs).2.amino_acid_match * (25/100)
            + (evaluate_blend s ps rs).2.growth_factor_match * (20/100)
            + (evaluate_blend s ps rs).2.mw_distribution_match * (15/100) : ℚ) : ℝ) := by
  have hE : (evaluate_blend strain peptones ratios).2 =
      (blendTotals strain (peptones.zip ratios)).2 := rfl
  refine ⟨?_, ?_, ?_, ?_, ?_, ?_⟩
  · rw [hE, blendTotals_closed]
  · rw [hE, blendTotals_closed]
    exact weighted_subsum_mem
      (fun q => (calculate_fitness_score strain q).2.nutritional_match)
      (fun q => match_nutritional_mem strain q) peptones ratios hlen hnn hsum
  · rw [hE, blendTotals_closed]
    exact weighted_subsum_mem
      (fun q => (calculate_fitness_score strain q).2.amino_acid_match)
      (fun q => match_amino_mem strain q) peptones ratios hlen hnn hsum
  · rw [hE, blendTotals_closed]
    exact weighted_subsum_mem
      (fun q => (calculate_fitness_score strain q).2.growth_factor_match)
      (fun q => match_growth_mem strain q) peptones ratios hlen hnn hsum
  · rw [hE, blendTotals_closed]
    exact weighted_subsum_mem
      (fun q => (calculate_fitness_score strain q).2.mw_distribution_match)
      (fun q => match_mw_mem strain q) peptones ratios hlen hnn hsum
  · refine ⟨otherStrain, [blendPeptoneA, blendPeptoneB], [1/2, 1/2], rfl,
      ?_, by norm_num, ?_⟩
    · intro r hr
      fin_cases hr <;> norm_num
    · rw [evaluate_blend_example]
      norm_num

/-- Witness for C9 at a concrete two-component blend. -/
theorem evaluate_blend_breakdown_spec_witness :
    ([blendPeptoneA, blendPeptoneB].length = ([1/2, 1/2] : List ℚ).length)
    ∧ (∀ r ∈ ([1/2, 1/2] : List ℚ), 0 ≤ r)
    ∧ ([1/2, 1/2] : List ℚ).sum = 1
    ∧ (0 ≤ (evaluate_blend otherStrain [blendPeptoneA, blendPeptoneB]
          [1/2, 1/2]).2.nutritional_match
       ∧ (evaluate_blend otherStrain [blendPeptoneA, blendPeptoneB]
          [1/2, 1/2]).2.nutritional_match ≤ 1) :=
  ⟨rfl, by intro r hr; fin_cases hr <;> norm_num, by norm_num,
   (evaluate_blend_breakdown_spec otherStrain [blendPeptoneA, blendPeptoneB]
     [1/2, 1/2] rfl (by intro r hr; fin_cases hr <;> norm_num)
     (by norm_num)).2.1⟩

/-! ### Blend optimizer (`blend_optimizer.py`)

The scipy solvers (`scipy.optimize.minimize` with SLSQP, and
`differential_evolution`) are external; they are modelled as oracles whose
returned `OptimizeResult` fields are fed to the code's own validation and
post-processing, which is what is embedded here. -/

/-- Python's `str.upper()`. -/
def pyUpper (s : String) : String := ⟨s.data.map Char.toUpper⟩

/-- Model of `blend_optimizer.BlendOptimizationResult`. -/
structure BlendOptimizationResult where
  peptones : List PeptoneProduct
  optimal_ratios : List ℚ
  final_score : ℚ
  optimization_method : String
  iterations : ℕ
  success : Bool
  message : String := ""
deriving DecidableEq

/-- The configuration of `BlendOptimizer` (defaults `0.1` and `0.8`). -/
structure BlendOptimizer where
  min_ratio : ℚ := 1/10
  max_ratio : ℚ := 8/10
deriving DecidableEq

/-- The fields of a scipy `OptimizeResult` that `blend_optimizer` reads
(`result.x`, `result.fun`, `result.nit`, `result.success`, `result.message`). -/
structure SolverOutput where
  x : List ℚ
  fun_value : ℚ
  nit : ℕ
  success : Bool
  message : String := ""
deriving DecidableEq

/-- The renormalization post-process of the differential-evolution path:
`optimal = result.x / np.sum(result.x)`. -/
def renormalize (x : List ℚ) : List ℚ := x.map (· / x.sum)

/-- Model of `BlendOptimizer.optimize_ratio`: count validation, then dispatch on the
upper-cased method name; the SLSQP branch returns the solver vector verbatim,
the differential-evolution branch renormalizes it; unknown methods and bad
component counts raise `ValueError` (modelled as `Except.error`). -/
def optimize_ratio (opt : BlendOptimizer) (slsqp de : SolverOutput)
    (peptones : List PeptoneProduct) (target_profile : Dict)
    (method : String) : Except String BlendOptimizationResult :=
  if peptones.length < 2 then .error "Need at least 2 peptones for blending"
  else if peptones.length > 5 then .error "Maximum 5 peptones supported"
  else if pyUpper method = "SLSQP" then
    .ok ⟨peptones, slsqp.x, slsqp.fun_value, "SLSQP", slsqp.nit, slsqp.success,
      slsqp.message⟩
  else if pyUpper method = "DIFFERENTIAL_EVOLUTION" then
    .ok ⟨peptones, renormalize de.x, de.fun_value, "Differential Evolution",
      de.nit, de.success, de.message⟩
  else .error ("Unknown optimization method: " ++ method)

/-- Model of `BlendOptimizer.optimize_for_strain`: no component-count validation at
all; dispatches on the method name only. -/
def optimize_for_strain (opt : BlendOptimizer) (slsqp : SolverOutput)
    (peptones : List PeptoneProduct) (strain : StrainProfile)
    (scoring_function : StrainProfile → List PeptoneProduct → List ℚ → ℚ)
    (method : String) : Except String BlendOptimizationResult :=
  if pyUpper method = "SLSQP" then
    .ok ⟨peptones, slsqp.x, -slsqp.fun_value, "SLSQP", slsqp.nit, slsqp.success,
      slsqp.message⟩
  else .error ("Unknown optimization method: " ++ method)

/-- The ratio vector of a non-raising optimizer call (`[]` on an error). -/
def resultRatios : Except String BlendOptimizationResult → List ℚ
  | .ok r => r.optimal_ratios
  | .error _ => []

/-- Whether the optimizer call produced a result instead of raising. -/
def isOkE : Except String BlendOptimizationResult → Bool
  | .ok _ => true
  | .error _ => false

theorem sum_map_div (l : List ℚ) (s : ℚ) : (l.map (· / s)).sum = l.sum / s := by
  induction l with
  | nil => simp
  | cons h t ih => simp [ih, add_div]

theorem renormalize_sum (x : List ℚ) (hx : x.sum ≠ 0) :
    (renormalize x).sum = 1 := by
  unfold renormalize
  rw [sum_map_div, div_self hx]

theorem sum_pos_of_bounds (x : List ℚ) (m : ℚ) (hm : 0 < m)
    (hb : ∀ r ∈ x, m ≤ r) (hne : x ≠ []) : 0 < x.sum :=
  List.sum_pos x (fun r hr => lt_of_lt_of_le hm (hb r hr)) hne

/-- A successful SLSQP solver report with a single-entry vector. -/
def soloSolver : SolverOutput :=
  ⟨[1], 0, 5, true, "Optimization terminated successfully"⟩

/-- A differential-evolution report whose raw vector `[0.8, 0.1]` lies inside
the default `[0.1, 0.8]` box bounds but does not sum to 1 (reported with
`success = False`). -/
def deRawSolver : SolverOutput :=
  ⟨[8/10, 1/10], 0, 100, false, "Maximum number of iterations has been reached."⟩

/-- A target nutritional profile as passed to `optimize_ratio`. -/
def targetExample : Dict :=
  [("TN", 8/10), ("AN", 8/10), ("essential_aa", 7/10), ("free_aa", 6/10),
   ("bcaa", 5/10), ("nucleotide", 4/10), ("vitamin", 3/10)]

/-- C3 counterexample: `optimize_for_strain` called with a single peptone
(fewer than 2) raises no `ValueError` and produces a result object, so the
claim that both operating modes fail with a domain error for under 2
components is false on the code. -/
theorem optimize_for_strain_no_count_check :
    ([blendPeptoneA] : List PeptoneProduct).length < 2
    ∧ isOkE (optimize_for_strain {} soloSolver [blendPeptoneA] otherStrain
        (fun _ _ _ => 0) "SLSQP") = true := by
  constructor
  · norm_num
  · have hup : pyUpper "SLSQP" = "SLSQP" := by decide
    unfold optimize_for_strain
    rw [if_pos hup]
    rfl

/-- C3 amended: `optimize_ratio` (target-matching mode) raises `ValueError`
exactly when the number of peptones is under 2 or over 5, while
`optimize_for_strain` (strain-fitness mode) performs no component-count
validation and returns a result object for any count. -/
theorem optimizer_count_validation_spec (opt : BlendOptimizer)
    (slsqp de : SolverOutput) (peptones : List PeptoneProduct)
    (target_profile : Dict) (strain : StrainProfile)
    (scoring_function : StrainProfile → List PeptoneProduct → List ℚ → ℚ) :
    (isOkE (optimize_ratio opt slsqp de peptones target_profile "SLSQP") = true
      ↔ 2 ≤ peptones.length ∧ peptones.length ≤ 5)
    ∧ isOkE (optimize_for_strain opt slsqp peptones strain scoring_function
        "SLSQP") = true := by
  have hup : pyUpper "SLSQP" = "SLSQP" := by decide
  constructor
  · unfold optimize_ratio
    by_cases h1 : peptones.length < 2
    · rw [if_pos h1]
      simp [isOkE]
      omega
    · rw [if_neg h1]
      by_cases h2 : peptones.length > 5
      · rw [if_pos h2]
        simp [isOkE]
        omega
      · rw [if_neg h2, if_pos hup]
        simp [isOkE]
        omega
  · unfold optimize_for_strain
    rw [if_pos hup]
    rfl

/-- C2 counterexample: on the differential-evolution path, a raw solver vector
`[0.8, 0.1]` inside the default `[0.1, 0.8]` band is renormalized to
`[8/9, 1/9]`, whose first ratio `8/9` exceeds `max_ratio = 0.8` — so the
returned blend result violates the per-ratio band the claim asserts. -/
theorem optimize_ratio_band_counterexample :
    (∀ r ∈ deRawSolver.x, (1/10 : ℚ) ≤ r ∧ r ≤ 8/10)
    ∧ resultRatios (optimize_ratio {} soloSolver deRawSolver
        [blendPeptoneA, blendPeptoneB] targetExample "DIFFERENTIAL_EVOLUTION")
      = [8/9, 1/9]
    ∧ ¬ ((8/9 : ℚ) ≤ 8/10) := by
  refine ⟨?_, ?_, by norm_num⟩
  · intro r hr
    simp only [deRawSolver] at hr
    fin_cases hr <;> norm_num
  · have hup : pyUpper "DIFFERENTIAL_EVOLUTION" = "DIFFERENTIAL_EVOLUTION" := by
      decide
    have hne : ¬ pyUpper "DIFFERENTIAL_EVOLUTION" = "SLSQP" := by decide
    unfold optimize_ratio
    rw [if_neg (by norm_num), if_neg (by norm_num), if_neg hne, if_pos hup]
    show renormalize [8/10, 1/10] = [8/9, 1/9]
    unfold renormalize
    norm_num

/-- C2 amended: the SLSQP path returns the solver's ratio vector verbatim (so
it lies in the `[min_ratio, max_ratio]` band exactly when the solver's output
does), and the differential-evolution path returns the raw vector divided by
its own sum, which always sums to exactly 1 but may leave the band; no `1e-6`
sum check is performed on either path. -/
theorem optimize_ratio_paths_spec (opt : BlendOptimizer)
    (slsqp de : SolverOutput) (peptones : List PeptoneProduct)
    (target_profile : Dict)
    (h2 : 2 ≤ peptones.length) (h5 : peptones.length ≤ 5)
    (hb : ∀ r ∈ de.x, opt.min_ratio ≤ r ∧ r ≤ opt.max_ratio)
    (hmin : 0 < opt.min_ratio) (hne : de.x ≠ []) :
    resultRatios (optimize_ratio opt slsqp de peptones target_profile
        "DIFFERENTIAL_EVOLUTION") = renormalize de.x
    ∧ (resultRatios (optimize_ratio opt slsqp de peptones target_profile
        "DIFFERENTIAL_EVOLUTION")).sum = 1
    ∧ resultRatios (optimize_ratio opt slsqp de peptones target_profile
        "SLSQP") = slsqp.x := by
  have hupde : pyUpper "DIFFERENTIAL_EVOLUTION" = "DIFFERENTIAL_EVOLUTION" := by
    decide
  have hnsl : ¬ pyUpper "DIFFERENTIAL_EVOLUTION" = "SLSQP" := by decide
  have hupsl : pyUpper "SLSQP" = "SLSQP" := by decide
  have hsum : (0 : ℚ) < de.x.sum :=
    sum_pos_of_bounds de.x opt.min_ratio hmin (fun r hr => (hb r hr).1) hne
  have hde : resultRatios (optimize_ratio opt slsqp de peptones target_profile
      "DIFFERENTIAL_EVOLUTION") = renormalize de.x := by
    unfold optimize_ratio
    rw [if_neg (by omega), if_neg (by omega), if_neg hnsl, if_pos hupde]
    rfl
  refine ⟨hde, ?_, ?_⟩
  · rw [hde]
    exact renormalize_sum de.x hsum.ne'
  · unfold optimize_ratio
    rw [if_neg (by omega), if_neg (by omega), if_pos hupsl]
    rfl

/-- Witness for the amended C2 at concrete inputs (the default band, the
`[0.8, 0.1]` raw vector, a two-component blend). -/
theorem optimize_ratio_paths_spec_witness :
    (2 ≤ ([blendPeptoneA, blendPeptoneB] : List PeptoneProduct).length)
    ∧ (∀ r ∈ deRawSolver.x,
        ({} : BlendOptimizer).min_ratio ≤ r ∧ r ≤ ({} : BlendOptimizer).max_ratio)
    ∧ (resultRatios (optimize_ratio {} soloSolver deRawSolver
        [blendPeptoneA, blendPeptoneB] targetExample
        "DIFFERENTIAL_EVOLUTION")).sum = 1 :=
  ⟨by norm_num,
   by intro r hr; simp only [deRawSolver] at hr; fin_cases hr <;>
      norm_num [BlendOptimizer.min_ratio, BlendOptimizer.max_ratio],
   (optimize_ratio_paths_spec {} soloSolver deRawSolver
     [blendPeptoneA, blendPeptoneB] targetExample (by norm_num) (by norm_num)
     (by intro r hr; simp only [deRawSolver] at hr; fin_cases hr <;>
       norm_num [BlendOptimizer.min_ratio, BlendOptimizer.max_ratio])
     (by norm_num) (by simp [deRawSolver])).2.1⟩

/-- C6: any raw differential-evolution vector inside the configured box bounds
(with a positive lower bound, as in the default `[0.1, 0.8]`), converged or
not, renormalizes to a vector summing to exactly 1. -/
theorem de_renormalize_sum_spec (opt : BlendOptimizer) (raw : List ℚ)
    (hb : ∀ r ∈ raw, opt.min_ratio ≤ r ∧ r ≤ opt.max_ratio)
    (hmin : 0 < opt.min_ratio) (hne : raw ≠ []) :
    (renormalize raw).sum = 1 :=
  renormalize_sum raw
    (sum_pos_of_bounds raw opt.min_ratio hmin (fun r hr => (hb r hr).1) hne).ne'

/-- Witness for C6 on a concrete non-converged raw vector. -/
theorem de_renormalize_sum_spec_witness :
    (∀ r ∈ ([2/10, 5/10] : List ℚ),
      ({} : BlendOptimizer).min_ratio ≤ r ∧ r ≤ ({} : BlendOptimizer).max_ratio)
    ∧ (renormalize [2/10, 5/10]).sum = 1 :=
  ⟨by intro r hr; fin_cases hr <;>
     norm_num [BlendOptimizer.min_ratio, BlendOptimizer.max_ratio],
   de_renormalize_sum_spec {} [2/10, 5/10]
     (by intro r hr; fin_cases hr <;>
       norm_num [BlendOptimizer.min_ratio, BlendOptimizer.max_ratio])
     (by norm_num) (by simp)⟩

/-! ### Enhanced recommender (`recommendation_engine_v2.py`) -/

/-- A nutrient → requirement-level map (`Dict[str, str]` in the source). -/
abbrev ReqMap := List (String × String)

/-- The amino acids checked by `_calculate_pathway_bonus`, in loop order. -/
def PATHWAY_AMINO_ACIDS : List String :=
  ["Threonine", "Methionine", "Lysine", "Tryptophan"]

/-- One iteration of the amino-acid loop of `_calculate_pathway_bonus`: the
partial credit for `aa`, or `none` when `{aa}_requirement` is absent (then
neither `bonus` nor `count` changes). -/
def aaCredit (peptone : PeptoneProduct) (reqs : ReqMap) (aa : String) :
    Option ℚ :=
  match reqs.lookup (aa ++ "_requirement") with
  | none => none
  | some requirement_level =>
      let faa_amount := dget peptone.profile.free_amino_acids ("faa_" ++ aa)
      let taa_amount := dget peptone.profile.total_amino_acids ("taa_" ++ aa)
      some (if requirement_level = "high" then
              if faa_amount > 5/10 ∨ taa_amount > 2 then 1
              else if faa_amount > 2/10 ∨ taa_amount > 1 then 1/2
              else 0
            else if requirement_level = "medium" then
              if faa_amount > 2/10 ∨ taa_amount > 1 then 7/10
              else if faa_amount > 1/10 ∨ taa_amount > 5/10 then 3/10
              else 0
            else 0)

/-- The vitamin step of `_calculate_pathway_bonus`. -/
def vitaminCredit (peptone : PeptoneProduct) (reqs : ReqMap) : Option ℚ :=
  match reqs.lookup "vitamin_requirement" with
  | none => none
  | some req_level =>
      let vitamin_total := dsum peptone.profile.vitamins
      some (if req_level = "high" ∧ vitamin_total > 5 then 1
            else if req_level = "medium" ∧ vitamin_total > 2 then 1/2
            else 0)

/-- The checked-nutrient steps of `_calculate_pathway_bonus`, in loop order. -/
def pathwaySteps (peptone : PeptoneProduct) (reqs : ReqMap) : List (Option ℚ) :=
  PATHWAY_AMINO_ACIDS.map (aaCredit peptone reqs) ++ [vitaminCredit peptone reqs]

/-- Model of `_calculate_pathway_bonus`: accumulate `bonus` and `count` over the checked
nutrients, then `bonus / count if count > 0 else 0.0`. -/
def calculate_pathway_bonus (peptone : PeptoneProduct) (reqs : ReqMap) : ℚ :=
  let bc := (pathwaySteps peptone reqs).foldl (fun acc o =>
    match o with
    | none => acc
    | some credit => (acc.1 + credit, acc.2 + 1)) ((0 : ℚ), (0 : ℕ))
  if bc.2 > 0 then bc.1 / (bc.2 : ℚ) else 0

/-- Python truthiness of the optional requirement map (`if pathway_requirements:`
is false for `None` and for an empty dict alike). -/
def reqsTruthy : Option ReqMap → Bool
  | none => false
  | some l => !l.isEmpty

/-- Model of `_calculate_enhanced_score`: the final score, the base four-subscore
breakdown, and the optional `pathway_match` entry of the breakdown. -/
def calculate_enhanced_score (strain : StrainProfile) (peptone : PeptoneProduct)
    (pathway_requirements : Option ReqMap) : ℚ × DetailedScores × Option ℚ :=
  let base := calculate_fitness_score strain peptone
  if reqsTruthy pathway_requirements then
    let pathway_bonus :=
      calculate_pathway_bonus peptone (pathway_requirements.getD [])
    (normalize_score (base.1 * (1 + pathway_bonus * (15/100))), base.2,
      some pathway_bonus)
  else
    (normalize_score base.1, base.2, none)

/-- The pathway-requirement decision of `recommend_with_pathways`: requirements
are fetched (from the KEGG collaborator, modelled as an oracle) only when KEGG
is enabled, a connector exists, and the strain is not NDA. -/
def pathwayRequirementsFor (use_kegg has_connector : Bool)
    (strain : StrainProfile) (kegg_oracle : Option ReqMap) : Option ReqMap :=
  if use_kegg && has_connector && !strain.is_nda then kegg_oracle else none

theorem normalize_eq_self (x : ℚ) (h0 : 0 ≤ x) (h1 : x ≤ 1) :
    normalize_score x = x := by
  unfold normalize_score
  rw [min_eq_right h1, max_eq_right h0]

theorem normalize_le_self (x : ℚ) (h0 : 0 ≤ x) : normalize_score x ≤ x :=
  max_le h0 (min_le_right 1 x)

theorem aaCredit_cases (peptone : PeptoneProduct) (reqs : ReqMap) (aa : String)
    (c : ℚ) (h : aaCredit peptone reqs aa = some c) :
    c = 1 ∨ c = 7/10 ∨ c = 1/2 ∨ c = 3/10 ∨ c = 0 := by
  unfold aaCredit at h
  cases hl : reqs.lookup (aa ++ "_requirement") with
  | none => rw [hl] at h; exact absurd h (by simp)
  | some level =>
      rw [hl] at h
      simp only [Option.some.injEq] at h
      split_ifs at h <;> (subst h; norm_num)

theorem vitaminCredit_cases (peptone : PeptoneProduct) (reqs : ReqMap)
    (c : ℚ) (h : vitaminCredit peptone reqs = some c) :
    c = 1 ∨ c = 7/10 ∨ c = 1/2 ∨ c = 3/10 ∨ c = 0 := by
  unfold vitaminCredit at h
  cases hl : reqs.lookup "vitamin_requirement" with
  | none => rw [hl] at h; exact absurd h (by simp)
  | some level =>
      rw [hl] at h
      simp only [Option.some.injEq] at h
      split_ifs at h <;> (subst h; norm_num)

theorem pathway_foldl_closed :
    ∀ (steps : List (Option ℚ)) (acc : ℚ × ℕ),
      steps.foldl (fun acc o =>
        match o with
        | none => acc
        | some credit => (acc.1 + credit, acc.2 + 1)) acc =
      (acc.1 + steps.reduceOption.sum, acc.2 + steps.reduceOption.length) := by
  intro steps
  induction steps with
  | nil => intro acc; simp
  | cons hd tl ih =>
      intro acc
      cases hd with
      | none => simp [List.reduceOption_cons_of_none, ih]
      | some c =>
          simp only [List.foldl_cons, List.reduceOption_cons_of_some, ih,
            List.sum_cons, List.length_cons]
          refine Prod.ext (by dsimp; ring) (by dsimp; omega)

/-- C8: the pathway bonus is the mean over the checked nutrients of partial
credits drawn from `{1.0, 0.7, 0.5, 0.3, 0}` and therefore lies in `[0,1]`;
with a (truthy) requirement map it is applied as `score * (1 + bonus*0.15)`
before the clamp, an uplift of at most 15%; without a requirement map the
score is returned unmodified and the breakdown carries no `pathway_match`
entry (and no error is possible — the embedding is a total function). -/
theorem pathway_bonus_spec (strain : StrainProfile) (peptone : PeptoneProduct)
    (rl : ReqMap) :
    (∀ c ∈ (pathwaySteps peptone rl).reduceOption,
        c = 1 ∨ c = 7/10 ∨ c = 1/2 ∨ c = 3/10 ∨ c = 0)
    ∧ calculate_pathway_bonus peptone rl =
        (if (pathwaySteps peptone rl).reduceOption = [] then 0
         else ((pathwaySteps peptone rl).reduceOption).sum /
              (((pathwaySteps peptone rl).reduceOption).length : ℚ))
    ∧ (0 ≤ calculate_pathway_bonus peptone rl
        ∧ calculate_pathway_bonus peptone rl ≤ 1)
    ∧ (rl ≠ [] →
        calculate_enhanced_score strain peptone (some rl) =
          (normalize_score ((calculate_fitness_score strain peptone).1 *
              (1 + calculate_pathway_bonus peptone rl * (15/100))),
           (calculate_fitness_score strain peptone).2,
           some (calculate_pathway_bonus peptone rl))
        ∧ (calculate_enhanced_score strain peptone (some rl)).1 ≤
            (calculate_fitness_score strain peptone).1 * (115/100))
    ∧ calculate_enhanced_score strain peptone none =
        ((calculate_fitness_score strain peptone).1,
         (calculate_fitness_score strain peptone).2, none) := by
  have hcases : ∀ c ∈ (pathwaySteps peptone rl).reduceOption,
      c = 1 ∨ c = 7/10 ∨ c = 1/2 ∨ c = 3/10 ∨ c = 0 := by
    intro c hc
    rw [List.reduceOption_mem_iff] at hc
    unfold pathwaySteps at hc
    rcases List.mem_append.1 hc with hmem | hmem
    · obtain ⟨aa, -, haa⟩ := List.mem_map.1 hmem
      exact aaCredit_cases peptone rl aa c haa
    · have hv : vitaminCredit peptone rl = some c := by
        have := (by simpa using hmem : some c = vitaminCredit peptone rl)
        exact this.symm
      exact vitaminCredit_cases peptone rl c hv
  have hc01 : ∀ c ∈ (pathwaySteps peptone rl).reduceOption, 0 ≤ c ∧ c ≤ 1 := by
    intro c hc
    rcases hcases c hc with h | h | h | h | h <;> subst h <;> norm_num
  have hmean : calculate_pathway_bonus peptone rl =
      (if (pathwaySteps peptone rl).reduceOption = [] then 0
       else ((pathwaySteps peptone rl).reduceOption).sum /
            (((pathwaySteps peptone rl).reduceOption).length : ℚ)) := by
    unfold calculate_pathway_bonus
    rw [pathway_foldl_closed]
    dsimp only
    rcases eq_or_ne (pathwaySteps peptone rl).reduceOption [] with he | he
    · rw [he]
      norm_num
    · rw [if_pos (by simpa using List.length_pos.2 he), if_neg he]
      norm_num
  have hb0 : 0 ≤ calculate_pathway_bonus peptone rl := by
    rw [hmean]
    split_ifs with he
    · norm_num
    · exact div_nonneg (List.sum_nonneg (fun c hc => (hc01 c hc).1))
        (by positivity)
  have hb1 : calculate_pathway_bonus peptone rl ≤ 1 := by
    rw [hmean]
    split_ifs with he
    · norm_num
    · have hlen : 0 < (((pathwaySteps peptone rl).reduceOption).length : ℚ) := by
        exact_mod_cast List.length_pos.2 he
      rw [div_le_one hlen]
      have hs := List.sum_le_card_nsmul ((pathwaySteps peptone rl).reduceOption)
        1 (fun c hc => (hc01 c hc).2)
      simpa using hs
  have hbase := fitness_overall_mem strain peptone
  refine ⟨hcases, hmean, ⟨hb0, hb1⟩, ?_, ?_⟩
  · intro hne
    have htr : reqsTruthy (some rl) = true := by
      simp [reqsTruthy, hne]
    have hdef : calculate_enhanced_score strain peptone (some rl) =
        (normalize_score ((calculate_fitness_score strain peptone).1 *
            (1 + calculate_pathway_bonus peptone rl * (15/100))),
         (calculate_fitness_score strain peptone).2,
         some (calculate_pathway_bonus peptone rl)) := by
      unfold calculate_enhanced_score
      rw [htr]
      simp
    refine ⟨hdef, ?_⟩
    rw [hdef]
    dsimp only
    have hpre0 : 0 ≤ (calculate_fitness_score strain peptone).1 *
        (1 + calculate_pathway_bonus peptone rl * (15/100)) :=
      mul_nonneg hbase.1 (by nlinarith)
    calc normalize_score ((calculate_fitness_score strain peptone).1 *
          (1 + calculate_pathway_bonus peptone rl * (15/100)))
        ≤ (calculate_fitness_score strain peptone).1 *
          (1 + calculate_pathway_bonus peptone rl * (15/100)) :=
          normalize_le_self _ hpre0
      _ ≤ (calculate_fitness_score strain peptone).1 * (115/100) := by
          nlinarith [hbase.1]
  · unfold calculate_enhanced_score
    rw [show reqsTruthy none = false from rfl]
    simp only [Bool.false_eq_true, if_false]
    rw [normalize_eq_self _ hbase.1 hbase.2]

/-- A peptone providing free Threonine `0.6` and total vitamins `3`. -/
def pathwayPeptone : PeptoneProduct :=
  ⟨"C1", "PepC", "soybean", "Other",
   { free_amino_acids := [("faa_Threonine", 6/10)],
     vitamins := [("vitB_B1", 3)] }, false⟩

/-- A requirement map demanding high Threonine and medium vitamins. -/
def pathwayReqs : ReqMap :=
  [("Threonine_requirement", "high"), ("vitamin_requirement", "medium")]

/-- Witness for C8 at a concrete peptone and requirement map. -/
theorem pathway_bonus_spec_witness :
    pathwayReqs ≠ []
    ∧ (calculate_enhanced_score otherStrain pathwayPeptone (some pathwayReqs)).1
        ≤ (calculate_fitness_score otherStrain pathwayPeptone).1 * (115/100) :=
  ⟨by simp [pathwayReqs],
   ((pathway_bonus_spec otherStrain pathwayPeptone pathwayReqs).2.2.2.1
     (by simp [pathwayReqs])).2⟩

/-- C10: a strain whose id contains `*` has `is_nda` forced to `true` at
construction, and the pathway-aware recommender never fetches pathway
requirements for it — regardless of KEGG availability its score equals the
base fitness score (no pathway multiplier) and its breakdown carries no
`pathway_match` entry. -/
theorem nda_strain_no_pathway_spec (genus species strain_id category : String)
    (nda0 : Bool) (h : strain_id.data.contains '*' = true) :
    (mkStrainProfile genus species strain_id category nda0).is_nda = true
    ∧ ∀ (use_kegg has_connector : Bool) (kegg_oracle : Option ReqMap)
        (peptone : PeptoneProduct),
        pathwayRequirementsFor use_kegg has_connector
            (mkStrainProfile genus species strain_id category nda0) kegg_oracle
          = none
        ∧ calculate_enhanced_score
            (mkStrainProfile genus species strain_id category nda0) peptone
            (pathwayRequirementsFor use_kegg has_connector
              (mkStrainProfile genus species strain_id category nda0) kegg_oracle)
          = ((calculate_fitness_score
                (mkStrainProfile genus species strain_id category nda0) peptone).1,
             (calculate_fitness_score
                (mkStrainProfile genus species strain_id category nda0) peptone).2,
             none) := by
  have hnda : (mkStrainProfile genus species strain_id category nda0).is_nda
      = true := by
    simp only [mkStrainProfile, Bool.or_eq_true]
    exact Or.inr h
  refine ⟨hnda, ?_⟩
  intro use_kegg has_connector kegg_oracle peptone
  have hreq : pathwayRequirementsFor use_kegg has_connector
      (mkStrainProfile genus species strain_id category nda0) kegg_oracle
      = none := by
    unfold pathwayRequirementsFor
    rw [hnda]
    simp
  refine ⟨hreq, ?_⟩
  rw [hreq]
  unfold calculate_enhanced_score
  rw [show reqsTruthy none = false from rfl]
  simp only [Bool.false_eq_true, if_false]
  rw [normalize_eq_self _ (fitness_overall_mem _ _).1 (fitness_overall_mem _ _).2]

/-- Witness for C10 at a concrete starred strain id. -/
theorem nda_strain_no_pathway_spec_witness :
    ("KCTC 1234*".data.contains '*' = true)
    ∧ (mkStrainProfile "Lactobacillus" "plantarum" "KCTC 1234*" "Other"
        false).is_nda = true :=
  ⟨by decide,
   (nda_strain_no_pathway_spec "Lactobacillus" "plantarum" "KCTC 1234*" "Other"
     false (by decide)).1⟩

/-! ### Complementarity selection (`find_complementary_peptones`) -/

/-- Model of `BlendOptimizer._extract_features`: the 7-dimensional feature vector
(TN/100, AN/20, the three amino-acid ratios, nucleotide sum/30, vitamin
sum/15). -/
def extract_features (peptone : PeptoneProduct) : List ℚ :=
  [dget peptone.profile.general "general_TN" / 100,
   dget peptone.profile.general "general_AN" / 20,
   get_essential_aa_ratio peptone.profile,
   get_free_aa_ratio peptone.profile,
   get_bcaa_ratio peptone.profile,
   dsum peptone.profile.nucleotides / 30,
   dsum peptone.profile.vitamins / 15]

/-- The coverage term of `find_complementary_peptones`: mean of the
candidate's features over the base's weak dimensions (`base_vector < 0.3`
elementwise), 0 when the base has no weak dimension. -/
def coverage (base_vector cand_vector : List ℚ) : ℚ :=
  let weak := ((base_vector.zip cand_vector).filter
    (fun q => q.1 < 3/10)).map Prod.snd
  if weak = [] then 0 else weak.sum / (weak.length : ℚ)

/-- The complementarity score `diversity * 0.6 + coverage * 0.4`, where
diversity is the Euclidean distance between the two feature vectors. -/
noncomputable def complementarity (base cand : PeptoneProduct) : ℝ :=
  euclidean_norm_diff (extract_features base) (extract_features cand) * (6/10)
    + (coverage (extract_features base) (extract_features cand) : ℝ) * (4/10)

open Classical in
/-- Model of `BlendOptimizer.find_complementary_peptones`: score every candidate whose
name differs from the base's, sort stably in descending score order, keep the
first `top_n`. -/
noncomputable def find_complementary_peptones (base : PeptoneProduct)
    (candidates : List PeptoneProduct) (top_n : ℕ) :
    List (PeptoneProduct × ℝ) :=
  let complementarity_scores :=
    (candidates.filter (fun c => c.name ≠ base.name)).map
      (fun c => (c, complementarity base c))
  (List.insertionSort (fun a b => b.2 ≤ a.2) complementarity_scores).take top_n

/-- C7: complementary-peptone selection assigns each kept candidate the score
`0.6 * (Euclidean distance of the 7-dimensional feature vectors) +
0.4 * (mean of the candidate's features over the base's weak dimensions, 0
without weak dimensions)`, excludes every candidate named like the base,
and returns at most `top_n` candidates in non-increasing score order. -/
theorem find_complementary_spec (base : PeptoneProduct)
    (candidates : List PeptoneProduct) (top_n : ℕ) :
    (∀ x ∈ find_complementary_peptones base candidates top_n,
        x.1.name ≠ base.name
        ∧ x.1 ∈ candidates
        ∧ x.2 = euclidean_norm_diff (extract_features base)
              (extract_features x.1) * (6/10)
            + (coverage (extract_features base) (extract_features x.1) : ℝ)
              * (4/10))
    ∧ (find_complementary_peptones base candidates top_n).length ≤ top_n
    ∧ List.Sorted (fun a b : PeptoneProduct × ℝ => b.2 ≤ a.2)
        (find_complementary_peptones base candidates top_n) := by
  classical
  haveI htot : IsTotal (PeptoneProduct × ℝ) (fun a b => b.2 ≤ a.2) :=
    ⟨fun a b => le_total b.2 a.2⟩
  haveI htrans : IsTrans (PeptoneProduct × ℝ) (fun a b => b.2 ≤ a.2) :=
    ⟨fun _ _ _ hab hbc => le_trans hbc hab⟩
  refine ⟨?_, ?_, ?_⟩
  · intro x hx
    have hx1 : x ∈ List.insertionSort (fun a b : PeptoneProduct × ℝ => b.2 ≤ a.2)
        ((candidates.filter (fun c => c.name ≠ base.name)).map
          (fun c => (c, complementarity base c))) := List.mem_of_mem_take hx
    rw [List.mem_insertionSort] at hx1
    obtain ⟨c, hc, rfl⟩ := List.mem_map.1 hx1
    obtain ⟨hcand, hname⟩ := List.mem_filter.1 hc
    refine ⟨by simpa using hname, hcand, rfl⟩
  · exact (List.length_take _ _).trans_le (min_le_left _ _) |>.trans le_rfl
  · apply List.Pairwise.sublist (List.take_sublist _ _)
    exact List.sorted_insertionSort _ _

end PeptoneFit
